import Mathlib

/-!
Verification of the bond-registry storage core (`registry/crud.py`,
`registry/models.py`, `registry/db.py`).

The backing DynamoDB table `bond` is keyed solely by `bond_id`.  We model it
as an association list from the storage key (a string) to the stored item.
Python dictionaries (the store itself and a bond's `subscribers` mapping)
are modelled as association lists with dictionary semantics: assignment
overwrites the entry in place, `pop` removes it.
-/

set_option autoImplicit false

namespace BondRegistry

/-- Dictionary lookup: first entry with the given key. -/
def alLookup {α : Type} (l : List (String × α)) (k : String) : Option α :=
  match l with
  | [] => none
  | (k', v) :: t => if k' = k then some v else alLookup t k

/-- Dictionary assignment `d[k] = v`: overwrite in place, else append. -/
def alInsert {α : Type} (l : List (String × α)) (k : String) (v : α) :
    List (String × α) :=
  match l with
  | [] => [(k, v)]
  | (k', v') :: t =>
      if k' = k then (k, v) :: t else (k', v') :: alInsert t k v

/-- Dictionary removal `d.pop(k, None)`: drop entries with the given key. -/
def alErase {α : Type} (l : List (String × α)) (k : String) :
    List (String × α) :=
  l.filter (fun p => p.1 ≠ k)

/-- `models.Subscriber`: sid, name, email (all strings; email validity is
checked at the boundary, not here). -/
structure Subscriber where
  sid : String
  name : String
  email : String
  deriving DecidableEq, Repr

/-- The JSON-encoded form of a subscriber as persisted inside an item
(`jsonable_encoder` output): the same three string fields. -/
structure SubscriberItem where
  sid : String
  name : String
  email : String
  deriving DecidableEq, Repr

/-- `models.Bond`: the six-field data model, `subscribers` keyed by sid. -/
structure Bond where
  bond_id : String
  host_account_id : String
  sub_account_id : String
  host_cost_center : String
  sub_cost_center : String
  subscribers : List (String × Subscriber)
  deriving DecidableEq, Repr

/-- The persisted record shape: exactly the six fields written by
`create_bond`'s `put_item`, with `subscribers` as the nested mapping
sid to subscriber-item. -/
structure Item where
  bond_id : String
  host_account_id : String
  sub_account_id : String
  host_cost_center : String
  sub_cost_center : String
  subscribers : List (String × SubscriberItem)
  deriving DecidableEq, Repr

/-- `jsonable_encoder` on one subscriber. -/
def encodeSubscriber (s : Subscriber) : SubscriberItem :=
  ⟨s.sid, s.name, s.email⟩

/-- `jsonable_encoder(bond.subscribers)`: the nested mapping. -/
def encodeSubscribers (l : List (String × Subscriber)) :
    List (String × SubscriberItem) :=
  l.map (fun p => (p.1, encodeSubscriber p.2))

/-- Pydantic parsing of a stored subscriber-item back into `Subscriber`. -/
def decodeSubscriber (si : SubscriberItem) : Subscriber :=
  ⟨si.sid, si.name, si.email⟩

/-- The item `create_bond` passes to `put_item` (crud.py lines 61-68). -/
def bond_to_item (b : Bond) : Item :=
  { bond_id := b.bond_id
    host_account_id := b.host_account_id
    sub_account_id := b.sub_account_id
    host_cost_center := b.host_cost_center
    sub_cost_center := b.sub_cost_center
    subscribers := encodeSubscribers b.subscribers }

/-- `crud.bond_from_item`: convert a stored item back into a `Bond`. -/
def bond_from_item (it : Item) : Bond :=
  { bond_id := it.bond_id
    host_account_id := it.host_account_id
    sub_account_id := it.sub_account_id
    host_cost_center := it.host_cost_center
    sub_cost_center := it.sub_cost_center
    subscribers := it.subscribers.map (fun p => (p.1, decodeSubscriber p.2)) }

/-- The DynamoDB `bond` table: storage key (the `bond_id` key attribute)
mapped to the stored item. -/
abbrev Store : Type := List (String × Item)

/-- A botocore `ClientError`: the error code from
`e.response['Error']['Code']` plus the rest of the message. -/
structure ClientError where
  code : String
  msg : String
  deriving DecidableEq, Repr

/-- The two engine-level exception classes of `registry/db.py`:
`ConditionalCheckError` (precondition failed) and `RegistryClientError`
(store unavailable / unexpected backend failure), each carrying its
message string. -/
inductive RegistryError where
  | conditionalCheckError (msg : String)
  | registryClientError (msg : String)
  deriving DecidableEq, Repr

/-- `conn.put_item` with `ConditionExpression='attribute_not_exists(bond_id)'`:
atomically fails when an item with that key exists, else writes the item
under its `bond_id`. -/
def conn_put_item (store : Store) (it : Item) : Except ClientError Store :=
  match alLookup store it.bond_id with
  | some _ => .error ⟨"ConditionalCheckFailedException",
                      "The conditional request failed"⟩
  | none => .ok (alInsert store it.bond_id it)

/-- `conn.update_item` with the five-field `UpdateExpression` and
`ConditionExpression='attribute_exists(bond_id)'`: atomically fails when no
item has the key, else overwrites the five non-key attributes in place. -/
def conn_update_item (store : Store) (k : String)
    (had sad hcc scc : String) (subs : List (String × SubscriberItem)) :
    Except ClientError Store :=
  match alLookup store k with
  | none => .error ⟨"ConditionalCheckFailedException",
                    "The conditional request failed"⟩
  | some it =>
      .ok (alInsert store k
        { it with
          host_account_id := had
          sub_account_id := sad
          host_cost_center := hcc
          sub_cost_center := scc
          subscribers := subs })

/-- `conn.delete_item`: removes the item if present; absence is not an
error. -/
def conn_delete_item (store : Store) (k : String) : Store :=
  alErase store k

/-- `conn.query` with `Key('bond_id').eq(k)`: the items under key `k`
(zero or one). -/
def conn_query_key (store : Store) (k : String) : List Item :=
  match alLookup store k with
  | none => []
  | some it => [it]

/-- `conn.query` against a secondary index on attribute `attr`: all stored
items whose attribute equals `v`, in store order. -/
def conn_query_index (store : Store) (attr : Item → String) (v : String) :
    List Item :=
  (store.filter (fun p => attr p.2 = v)).map (fun p => p.2)

/-- The `except ClientError` block of `create_bond` (crud.py lines 69-77):
a `ConditionalCheckFailedException` code becomes `ConditionalCheckError`
("Bond already exists"), any other client error becomes
`RegistryClientError`. -/
def create_bond_on_client_error (b : Bond) (e : ClientError) : RegistryError :=
  if e.code = "ConditionalCheckFailedException" then
    .conditionalCheckError ("Bond already exists: bond_id=" ++ b.bond_id)
  else
    .registryClientError ("Unexpected error querying the registry: " ++ e.msg)

/-- The `except ClientError` block of `update_bond` (crud.py lines 117-125). -/
def update_bond_on_client_error (b : Bond) (e : ClientError) : RegistryError :=
  if e.code = "ConditionalCheckFailedException" then
    .conditionalCheckError ("Bond not found: bond_id=" ++ b.bond_id)
  else
    .registryClientError ("Unexpected error querying the registry: " ++ e.msg)

/-- The `except ClientError` block of `delete_bond` and `execute_query`:
every client error becomes `RegistryClientError`. -/
def query_on_client_error (e : ClientError) : RegistryError :=
  .registryClientError ("Unexpected error querying the registry: " ++ e.msg)

/-- `crud.create_bond`: conditional put of the six-field item; on failure the
store is unchanged and the translated exception is returned. -/
def create_bond (store : Store) (b : Bond) :
    Except RegistryError Bond × Store :=
  match conn_put_item store (bond_to_item b) with
  | .ok s' => (.ok b, s')
  | .error e => (.error (create_bond_on_client_error b e), store)

/-- `crud.update_bond`: conditional five-field update at key `b.bond_id`;
on failure the store is unchanged and the translated exception is
returned. -/
def update_bond (store : Store) (b : Bond) :
    Except RegistryError Bond × Store :=
  match conn_update_item store b.bond_id b.host_account_id b.sub_account_id
      b.host_cost_center b.sub_cost_center (encodeSubscribers b.subscribers)
      with
  | .ok s' => (.ok b, s')
  | .error e => (.error (update_bond_on_client_error b e), store)

/-- `crud.delete_bond`: unconditional delete; absence is not an error. -/
def delete_bond (store : Store) (bond_id : String) :
    Except RegistryError Unit × Store :=
  (.ok (), conn_delete_item store bond_id)

/-- `crud.get_bond`: query by key; `None` when no items come back, else the
first item decoded. -/
def get_bond (store : Store) (bond_id : String) : Option Bond :=
  match conn_query_key store bond_id with
  | [] => none
  | it :: _ => some (bond_from_item it)

/-- `crud.get_bonds_by_host_cost_center`: index query decoded item by item. -/
def get_bonds_by_host_cost_center (store : Store) (v : String) : List Bond :=
  (conn_query_index store (fun it => it.host_cost_center) v).map bond_from_item

/-- `crud.get_bonds_by_host_account_id`. -/
def get_bonds_by_host_account_id (store : Store) (v : String) : List Bond :=
  (conn_query_index store (fun it => it.host_account_id) v).map bond_from_item

/-- `crud.get_bonds_by_sub_cost_center`. -/
def get_bonds_by_sub_cost_center (store : Store) (v : String) : List Bond :=
  (conn_query_index store (fun it => it.sub_cost_center) v).map bond_from_item

/-- `crud.get_bonds_by_sub_account_id`. -/
def get_bonds_by_sub_account_id (store : Store) (v : String) : List Bond :=
  (conn_query_index store (fun it => it.sub_account_id) v).map bond_from_item

/-- `models.Bond.add_subscriber`: `self.subscribers[sub.sid] = sub`. -/
def Bond.add_subscriber (b : Bond) (sub : Subscriber) : Bond :=
  { b with subscribers := alInsert b.subscribers sub.sid sub }

/-- `models.Bond.remove_subscriber`: `self.subscribers.pop(sub_id, None)`. -/
def Bond.remove_subscriber (b : Bond) (sub_id : String) : Bond :=
  { b with subscribers := alErase b.subscribers sub_id }

/-- `crud.add_subscriber`: read-modify-write; bond absent raises
`ConditionalCheckError` naming the bond and the subscriber. -/
def add_subscriber (store : Store) (bond_id : String) (sub : Subscriber) :
    Except RegistryError Bond × Store :=
  match get_bond store bond_id with
  | none =>
      (.error (.conditionalCheckError
        ("Bond " ++ bond_id ++ " not found. Cannot add subscriber " ++
         sub.sid ++ ".")), store)
  | some b => update_bond store (b.add_subscriber sub)

/-- `crud.remove_subscriber`: read-modify-write; bond absent raises
`ConditionalCheckError`; an absent sid is silently ignored and the bond is
still written back. -/
def remove_subscriber (store : Store) (bond_id : String) (sid : String) :
    Except RegistryError Bond × Store :=
  match get_bond store bond_id with
  | none =>
      (.error (.conditionalCheckError
        ("Bond " ++ bond_id ++ " not found. Cannot remove subscriber " ++
         sid ++ ".")), store)
  | some b => update_bond store (b.remove_subscriber sid)

theorem alLookup_alInsert_self {α : Type} (l : List (String × α))
    (k : String) (v : α) : alLookup (alInsert l k v) k = some v := by
  induction l with
  | nil => simp [alInsert, alLookup]
  | cons p t ih =>
      obtain ⟨k', v'⟩ := p
      by_cases h : k' = k <;> simp [alInsert, alLookup, h, ih]

theorem alLookup_alInsert_ne {α : Type} (l : List (String × α))
    (k k' : String) (v : α) (h : k' ≠ k) :
    alLookup (alInsert l k v) k' = alLookup l k' := by
  induction l with
  | nil => simp [alInsert, alLookup, Ne.symm h]
  | cons p t ih =>
      obtain ⟨k₀, v₀⟩ := p
      by_cases h₀ : k₀ = k
      · subst h₀
        simp [alInsert, alLookup, Ne.symm h]
      · simp [alInsert, alLookup, h₀, ih]

theorem alLookup_alErase_self {α : Type} (l : List (String × α))
    (k : String) : alLookup (alErase l k) k = none := by
  induction l with
  | nil => simp [alErase, alLookup]
  | cons p t ih =>
      obtain ⟨k', v'⟩ := p
      by_cases h : k' = k <;>
        simp_all [alErase, alLookup, List.filter, h]

theorem alLookup_alErase_ne {α : Type} (l : List (String × α))
    (k k' : String) (h : k' ≠ k) :
    alLookup (alErase l k) k' = alLookup l k' := by
  induction l with
  | nil => simp [alErase, alLookup]
  | cons p t ih =>
      obtain ⟨k₀, v₀⟩ := p
      by_cases h₀ : k₀ = k
      · subst h₀
        simp_all [alErase, alLookup, List.filter, Ne.symm h]
      · by_cases h₁ : k₀ = k' <;>
          simp_all [alErase, alLookup, List.filter, h₀, h₁]

theorem alErase_alErase {α : Type} (l : List (String × α)) (k : String) :
    alErase (alErase l k) k = alErase l k := by
  simp [alErase, List.filter_filter]

theorem alLookup_none_key_ne {α : Type} (l : List (String × α))
    (k : String) (h : alLookup l k = none) :
    ∀ p ∈ l, p.1 ≠ k := by
  induction l with
  | nil => simp
  | cons p t ih =>
      obtain ⟨k', v'⟩ := p
      by_cases h' : k' = k
      · simp [alLookup, h'] at h
      · simp only [alLookup, if_neg h'] at h
        intro q hq
        rcases List.mem_cons.mp hq with h₁ | h₁
        · simpa [h₁] using h'
        · exact ih h q h₁

theorem alErase_of_lookup_none {α : Type} (l : List (String × α))
    (k : String) (h : alLookup l k = none) : alErase l k = l := by
  rw [alErase, List.filter_eq_self]
  intro p hp
  simpa using alLookup_none_key_ne l k h p hp

theorem alInsert_length_of_lookup_some {α : Type} (l : List (String × α))
    (k : String) (v w : α) (h : alLookup l k = some w) :
    (alInsert l k v).length = l.length := by
  induction l with
  | nil => simp [alLookup] at h
  | cons p t ih =>
      obtain ⟨k', v'⟩ := p
      by_cases h' : k' = k
      · simp [alInsert, h']
      · simp only [alLookup, if_neg h'] at h
        simp [alInsert, h', ih h]

theorem alLookup_mem {α : Type} (l : List (String × α)) (k : String)
    (v : α) (h : alLookup l k = some v) : (k, v) ∈ l := by
  induction l with
  | nil => simp [alLookup] at h
  | cons p t ih =>
      obtain ⟨k', v'⟩ := p
      by_cases h' : k' = k
      · subst h'
        simp [alLookup] at h
        simp [h]
      · simp only [alLookup, if_neg h'] at h
        exact List.mem_cons_of_mem _ (ih h)

theorem mem_alInsert {α : Type} (l : List (String × α)) (k : String)
    (v : α) (p : String × α) (h : p ∈ alInsert l k v) :
    p = (k, v) ∨ p ∈ l := by
  induction l with
  | nil => simpa [alInsert] using h
  | cons q t ih =>
      obtain ⟨k', v'⟩ := q
      by_cases h' : k' = k
      · simp only [alInsert, if_pos h'] at h
        rcases List.mem_cons.mp h with h₁ | h₁
        · exact Or.inl h₁
        · exact Or.inr (List.mem_cons_of_mem _ h₁)
      · simp only [alInsert, if_neg h'] at h
        rcases List.mem_cons.mp h with h₁ | h₁
        · exact Or.inr (by simp [h₁])
        · rcases ih h₁ with h₂ | h₂
          · exact Or.inl h₂
          · exact Or.inr (List.mem_cons_of_mem _ h₂)

theorem mem_alErase {α : Type} (l : List (String × α)) (k : String)
    (p : String × α) (h : p ∈ alErase l k) : p ∈ l :=
  List.mem_of_mem_filter h

/-- Decoding inverts encoding on a single subscriber. -/
theorem decode_encode_subscriber (s : Subscriber) :
    decodeSubscriber (encodeSubscriber s) = s := rfl

/-- Decoding inverts encoding on a whole subscriber mapping. -/
theorem decode_encodeSubscribers (l : List (String × Subscriber)) :
    (encodeSubscribers l).map (fun p => (p.1, decodeSubscriber p.2)) = l := by
  induction l with
  | nil => rfl
  | cons p t ih => exact congrArg (List.cons p) ih

/-- Storage round-trip on the bond value itself. -/
theorem bond_from_item_bond_to_item (b : Bond) :
    bond_from_item (bond_to_item b) = b := by
  simp [bond_from_item, bond_to_item, decode_encodeSubscribers]

/-- Sample data used by the concrete witnesses (the spec's section 8
scenario). -/
def bondA : Bond := ⟨"b1", "H1", "S1", "red", "blue", []⟩

def subU1 : Subscriber := ⟨"u1", "A", "a@x.com"⟩

def bondB : Bond := ⟨"b2", "H2", "S2", "yellow", "green", [("u1", subU1)]⟩

def storeA : Store := [("b1", bond_to_item bondA)]

def storeAB : Store := [("b1", bond_to_item bondA), ("b2", bond_to_item bondB)]

/-- C1: `create_bond` on an already-present key fails with
bond-already-exists and leaves the store untouched; on an absent key it
stores the bond's item under `b.bond_id`, succeeds with the bond itself,
and no other record changes. -/
theorem create_bond_spec (store : Store) (b : Bond) :
    (∀ it, alLookup store b.bond_id = some it →
      (create_bond store b).1 = Except.error (RegistryError.conditionalCheckError
        ("Bond already exists: bond_id=" ++ b.bond_id)) ∧
      (create_bond store b).2 = store) ∧
    (alLookup store b.bond_id = none →
      (create_bond store b).1 = Except.ok b ∧
      alLookup (create_bond store b).2 b.bond_id = some (bond_to_item b) ∧
      ∀ k, k ≠ b.bond_id →
        alLookup (create_bond store b).2 k = alLookup store k) := by
  constructor
  · intro it h
    simp [create_bond, conn_put_item, bond_to_item, h,
      create_bond_on_client_error]
  · intro h
    refine ⟨?_, ?_, ?_⟩
    · simp [create_bond, conn_put_item, bond_to_item, h]
    · simp [create_bond, conn_put_item, bond_to_item, h,
        alLookup_alInsert_self]
    · intro k hk
      simp [create_bond, conn_put_item, bond_to_item, h,
        alLookup_alInsert_ne _ _ _ _ hk]

/-- C1 witness: both branches of `create_bond_spec` on concrete stores. -/
theorem create_bond_spec_witness :
    (alLookup storeA bondA.bond_id = some (bond_to_item bondA) ∧
      (create_bond storeA bondA).1 =
        Except.error (RegistryError.conditionalCheckError
          ("Bond already exists: bond_id=" ++ bondA.bond_id)) ∧
      (create_bond storeA bondA).2 = storeA) ∧
    (alLookup ([] : Store) bondA.bond_id = none ∧
      (create_bond ([] : Store) bondA).1 = Except.ok bondA ∧
      alLookup (create_bond ([] : Store) bondA).2 bondA.bond_id =
        some (bond_to_item bondA)) := by
  have h₁ : alLookup storeA bondA.bond_id = some (bond_to_item bondA) := by
    decide
  have h₂ : alLookup ([] : Store) bondA.bond_id = none := by decide
  have c₁ := (create_bond_spec storeA bondA).1 (bond_to_item bondA) h₁
  have c₂ := (create_bond_spec ([] : Store) bondA).2 h₂
  exact ⟨⟨h₁, c₁.1, c₁.2⟩, ⟨h₂, c₂.1, c₂.2.1⟩⟩

/-- The item left at key `b.bond_id` by a successful `update_bond`: the five
non-key fields overwritten with `b`'s values, `bond_id` untouched. -/
def updated_item (it : Item) (b : Bond) : Item :=
  { it with
    host_account_id := b.host_account_id
    sub_account_id := b.sub_account_id
    host_cost_center := b.host_cost_center
    sub_cost_center := b.sub_cost_center
    subscribers := encodeSubscribers b.subscribers }

/-- C2: `update_bond` on an absent key fails with bond-not-found and leaves
the store unchanged (no write); on a present key it succeeds with `b`,
overwrites exactly the five non-key fields of the stored item with `b`'s
values (the item's `bond_id` is untouched), and no other record changes. -/
theorem update_bond_spec (store : Store) (b : Bond) :
    (alLookup store b.bond_id = none →
      (update_bond store b).1 = Except.error (RegistryError.conditionalCheckError
        ("Bond not found: bond_id=" ++ b.bond_id)) ∧
      (update_bond store b).2 = store) ∧
    (∀ it, alLookup store b.bond_id = some it →
      (update_bond store b).1 = Except.ok b ∧
      alLookup (update_bond store b).2 b.bond_id = some (updated_item it b) ∧
      (updated_item it b).bond_id = it.bond_id ∧
      ∀ k, k ≠ b.bond_id →
        alLookup (update_bond store b).2 k = alLookup store k) := by
  constructor
  · intro h
    simp [update_bond, conn_update_item, h, update_bond_on_client_error]
  · intro it h
    refine ⟨?_, ?_, rfl, ?_⟩
    · simp [update_bond, conn_update_item, h]
    · simp [update_bond, conn_update_item, h, updated_item,
        alLookup_alInsert_self]
    · intro k hk
      simp [update_bond, conn_update_item, h,
        alLookup_alInsert_ne _ _ _ _ hk]

/-- C2 witness: both branches of `update_bond_spec` on concrete stores. -/
theorem update_bond_spec_witness :
    (alLookup ([] : Store) bondA.bond_id = none ∧
      (update_bond ([] : Store) bondA).1 =
        Except.error (RegistryError.conditionalCheckError
          ("Bond not found: bond_id=" ++ bondA.bond_id)) ∧
      (update_bond ([] : Store) bondA).2 = ([] : Store)) ∧
    (alLookup storeA bondA.bond_id = some (bond_to_item bondA) ∧
      (update_bond storeA bondA).1 = Except.ok bondA ∧
      alLookup (update_bond storeA bondA).2 bondA.bond_id =
        some (updated_item (bond_to_item bondA) bondA)) := by
  have h₁ : alLookup ([] : Store) bondA.bond_id = none := by decide
  have h₂ : alLookup storeA bondA.bond_id = some (bond_to_item bondA) := by
    decide
  have c₁ := (update_bond_spec ([] : Store) bondA).1 h₁
  have c₂ := (update_bond_spec storeA bondA).2 (bond_to_item bondA) h₂
  exact ⟨⟨h₁, c₁.1, c₁.2⟩, ⟨h₂, c₂.1, c₂.2.1⟩⟩

/-- C3: `delete_bond` never fails, whether or not the key is present; after
deleting twice, no record for the key remains; a second delete of the same
key changes nothing (idempotence). -/
theorem delete_bond_spec (store : Store) (x : String) :
    (delete_bond store x).1 = Except.ok () ∧
    alLookup (delete_bond store x).2 x = none ∧
    (delete_bond (delete_bond store x).2 x).1 = Except.ok () ∧
    alLookup (delete_bond (delete_bond store x).2 x).2 x = none ∧
    (delete_bond (delete_bond store x).2 x).2 = (delete_bond store x).2 := by
  refine ⟨rfl, ?_, rfl, ?_, ?_⟩
  · exact alLookup_alErase_self store x
  · exact alLookup_alErase_self _ x
  · simpa [delete_bond, conn_delete_item] using alErase_alErase store x

/-- C4: `get_bond` returns `none` — a normal, non-error result — when no
record with the key exists, and the stored bond (the item decoded by
`bond_from_item`) when one does. -/
theorem get_bond_spec (store : Store) (x : String) :
    (alLookup store x = none → get_bond store x = none) ∧
    (∀ it, alLookup store x = some it →
      get_bond store x = some (bond_from_item it)) := by
  constructor
  · intro h
    simp [get_bond, conn_query_key, h]
  · intro it h
    simp [get_bond, conn_query_key, h]

/-- C4 witness: both branches of `get_bond_spec` on concrete stores. -/
theorem get_bond_spec_witness :
    (alLookup storeA "zz" = none ∧ get_bond storeA "zz" = none) ∧
    (alLookup storeA "b1" = some (bond_to_item bondA) ∧
      get_bond storeA "b1" = some (bond_from_item (bond_to_item bondA))) := by
  have h₁ : alLookup storeA "zz" = none := by decide
  have h₂ : alLookup storeA "b1" = some (bond_to_item bondA) := by decide
  exact ⟨⟨h₁, (get_bond_spec storeA "zz").1 h₁⟩,
    ⟨h₂, (get_bond_spec storeA "b1").2 (bond_to_item bondA) h₂⟩⟩

/-- C5: `add_subscriber` on an absent bond fails with bond-not-found naming
both the bond and the subscriber, writing nothing; on a present bond it
persists, via `update_bond`, the fetched bond with the subscriber mapping
updated at `s.sid` (insert or full overwrite), all sibling subscribers and
all other bond fields untouched, and the subscriber count unchanged when
`s.sid` was already present. -/
theorem add_subscriber_spec (store : Store) (x : String) (s : Subscriber) :
    (alLookup store x = none →
      (add_subscriber store x s).1 =
        Except.error (RegistryError.conditionalCheckError
          ("Bond " ++ x ++ " not found. Cannot add subscriber " ++
           s.sid ++ ".")) ∧
      (add_subscriber store x s).2 = store) ∧
    (∀ it, alLookup store x = some it →
      add_subscriber store x s =
        update_bond store ((bond_from_item it).add_subscriber s) ∧
      alLookup ((bond_from_item it).add_subscriber s).subscribers s.sid =
        some s ∧
      (∀ sid, sid ≠ s.sid →
        alLookup ((bond_from_item it).add_subscriber s).subscribers sid =
          alLookup (bond_from_item it).subscribers sid) ∧
      ((bond_from_item it).add_subscriber s).bond_id =
        (bond_from_item it).bond_id ∧
      ((bond_from_item it).add_subscriber s).host_account_id =
        (bond_from_item it).host_account_id ∧
      ((bond_from_item it).add_subscriber s).sub_account_id =
        (bond_from_item it).sub_account_id ∧
      ((bond_from_item it).add_subscriber s).host_cost_center =
        (bond_from_item it).host_cost_center ∧
      ((bond_from_item it).add_subscriber s).sub_cost_center =
        (bond_from_item it).sub_cost_center ∧
      (∀ w, alLookup (bond_from_item it).subscribers s.sid = some w →
        ((bond_from_item it).add_subscriber s).subscribers.length =
          (bond_from_item it).subscribers.length) ∧
      (it.bond_id = x →
        (add_subscriber store x s).1 =
          Except.ok ((bond_from_item it).add_subscriber s))) := by
  constructor
  · intro h
    simp [add_subscriber, get_bond, conn_query_key, h]
  · intro it h
    have hget : get_bond store x = some (bond_from_item it) := by
      simp [get_bond, conn_query_key, h]
    refine ⟨?_, ?_, ?_, rfl, rfl, rfl, rfl, rfl, ?_, ?_⟩
    · simp [add_subscriber, hget]
    · exact alLookup_alInsert_self _ _ _
    · intro sid hsid
      exact alLookup_alInsert_ne _ _ _ _ hsid
    · intro w _
      exact alInsert_length_of_lookup_some _ _ _ w (by assumption)
    · intro hkey
      have hb : ((bond_from_item it).add_subscriber s).bond_id = x := by
        simpa [Bond.add_subscriber, bond_from_item] using hkey
      simp [add_subscriber, hget, update_bond, conn_update_item, hb, h]

/-- C5 witness: both branches of `add_subscriber_spec` on concrete inputs. -/
theorem add_subscriber_spec_witness :
    (alLookup ([] : Store) "b1" = none ∧
      (add_subscriber ([] : Store) "b1" subU1).1 =
        Except.error (RegistryError.conditionalCheckError
          ("Bond " ++ "b1" ++ " not found. Cannot add subscriber " ++
           subU1.sid ++ "."))) ∧
    (alLookup storeAB "b2" = some (bond_to_item bondB) ∧
      alLookup ((bond_from_item (bond_to_item bondB)).add_subscriber
        subU1).subscribers subU1.sid = some subU1 ∧
      ((bond_from_item (bond_to_item bondB)).add_subscriber
        subU1).subscribers.length =
        (bond_from_item (bond_to_item bondB)).subscribers.length) := by
  have h₁ : alLookup ([] : Store) "b1" = none := by decide
  have h₂ : alLookup storeAB "b2" = some (bond_to_item bondB) := by decide
  have hw : alLookup (bond_from_item (bond_to_item bondB)).subscribers
      subU1.sid = some subU1 := by decide
  have c₁ := (add_subscriber_spec ([] : Store) "b1" subU1).1 h₁
  have c₂ := (add_subscriber_spec storeAB "b2" subU1).2 (bond_to_item bondB) h₂
  exact ⟨⟨h₁, c₁.1⟩, ⟨h₂, c₂.2.1, c₂.2.2.2.2.2.2.2.2.1 subU1 hw⟩⟩

/-- C6: `remove_subscriber` on an absent bond fails with bond-not-found
naming the bond and the sid, writing nothing; on a present bond it persists,
via `update_bond`, the fetched bond with the `sid` entry removed, all other
entries and fields untouched; when the sid is absent from the mapping the
bond value is literally unchanged yet the `update_bond` write is still
issued, and the call succeeds. -/
theorem remove_subscriber_spec (store : Store) (x sid : String) :
    (alLookup store x = none →
      (remove_subscriber store x sid).1 =
        Except.error (RegistryError.conditionalCheckError
          ("Bond " ++ x ++ " not found. Cannot remove subscriber " ++
           sid ++ ".")) ∧
      (remove_subscriber store x sid).2 = store) ∧
    (∀ it, alLookup store x = some it →
      remove_subscriber store x sid =
        update_bond store ((bond_from_item it).remove_subscriber sid) ∧
      alLookup ((bond_from_item it).remove_subscriber sid).subscribers sid =
        none ∧
      (∀ k, k ≠ sid →
        alLookup ((bond_from_item it).remove_subscriber sid).subscribers k =
          alLookup (bond_from_item it).subscribers k) ∧
      ((bond_from_item it).remove_subscriber sid).bond_id =
        (bond_from_item it).bond_id ∧
      ((bond_from_item it).remove_subscriber sid).host_account_id =
        (bond_from_item it).host_account_id ∧
      ((bond_from_item it).remove_subscriber sid).sub_account_id =
        (bond_from_item it).sub_account_id ∧
      ((bond_from_item it).remove_subscriber sid).host_cost_center =
        (bond_from_item it).host_cost_center ∧
      ((bond_from_item it).remove_subscriber sid).sub_cost_center =
        (bond_from_item it).sub_cost_center ∧
      (alLookup (bond_from_item it).subscribers sid = none →
        (bond_from_item it).remove_subscriber sid = bond_from_item it ∧
        remove_subscriber store x sid =
          update_bond store (bond_from_item it)) ∧
      (it.bond_id = x →
        (remove_subscriber store x sid).1 =
          Except.ok ((bond_from_item it).remove_subscriber sid))) := by
  constructor
  · intro h
    simp [remove_subscriber, get_bond, conn_query_key, h]
  · intro it h
    have hget : get_bond store x = some (bond_from_item it) := by
      simp [get_bond, conn_query_key, h]
    have hnoop : alLookup (bond_from_item it).subscribers sid = none →
        (bond_from_item it).remove_subscriber sid = bond_from_item it := by
      intro habs
      show ({ bond_from_item it with
        subscribers := alErase (bond_from_item it).subscribers sid } = _)
      rw [alErase_of_lookup_none _ _ habs]
    refine ⟨?_, ?_, ?_, rfl, rfl, rfl, rfl, rfl, ?_, ?_⟩
    · simp [remove_subscriber, hget]
    · exact alLookup_alErase_self _ _
    · intro k hk
      exact alLookup_alErase_ne _ _ _ hk
    · intro habs
      refine ⟨hnoop habs, ?_⟩
      simp [remove_subscriber, hget, hnoop habs]
    · intro hkey
      have hb : ((bond_from_item it).remove_subscriber sid).bond_id = x := by
        simpa [Bond.remove_subscriber, bond_from_item] using hkey
      simp [remove_subscriber, hget, update_bond, conn_update_item, hb, h]

/-- C6 witness: absent bond, present bond with absent sid (no-op but still a
successful write), and present sid (entry removed). -/
theorem remove_subscriber_spec_witness :
    (alLookup ([] : Store) "b1" = none ∧
      (remove_subscriber ([] : Store) "b1" "u1").1 =
        Except.error (RegistryError.conditionalCheckError
          ("Bond " ++ "b1" ++ " not found. Cannot remove subscriber " ++
           "u1" ++ "."))) ∧
    (alLookup storeAB "b2" = some (bond_to_item bondB) ∧
      alLookup (bond_from_item (bond_to_item bondB)).subscribers "zz" =
        none ∧
      (bond_from_item (bond_to_item bondB)).remove_subscriber "zz" =
        bond_from_item (bond_to_item bondB) ∧
      remove_subscriber storeAB "b2" "zz" =
        update_bond storeAB (bond_from_item (bond_to_item bondB)) ∧
      (remove_subscriber storeAB "b2" "u1").1 =
        Except.ok ((bond_from_item (bond_to_item bondB)).remove_subscriber
          "u1")) := by
  have h₁ : alLookup ([] : Store) "b1" = none := by decide
  have h₂ : alLookup storeAB "b2" = some (bond_to_item bondB) := by decide
  have habs : alLookup (bond_from_item (bond_to_item bondB)).subscribers
      "zz" = none := by decide
  have hkey : (bond_to_item bondB).bond_id = "b2" := by decide
  have c₁ := (remove_subscriber_spec ([] : Store) "b1" "u1").1 h₁
  have c₂ := (remove_subscriber_spec storeAB "b2" "zz").2 (bond_to_item bondB)
    h₂
  have c₃ := (remove_subscriber_spec storeAB "b2" "u1").2 (bond_to_item bondB)
    h₂
  have noop := c₂.2.2.2.2.2.2.2.2.1 habs
  exact ⟨⟨h₁, c₁.1⟩, ⟨h₂, habs, noop.1, noop.2,
    c₃.2.2.2.2.2.2.2.2.2 hkey⟩⟩

theorem mem_index_query (store : Store) (attr : Item → String) (v : String)
    (b : Bond) :
    b ∈ (conn_query_index store attr v).map bond_from_item ↔
      ∃ p ∈ store, attr p.2 = v ∧ b = bond_from_item p.2 := by
  simp only [conn_query_index, List.map_map, List.mem_map, List.mem_filter,
    Function.comp, decide_eq_true_eq]
  constructor
  · rintro ⟨p, ⟨hp, ha⟩, hb⟩
    exact ⟨p, hp, ha, hb.symm⟩
  · rintro ⟨p, hp, ha, hb⟩
    exact ⟨p, ⟨hp, ha⟩, hb.symm⟩

theorem length_index_query (store : Store) (attr : Item → String)
    (v : String) :
    ((conn_query_index store attr v).map bond_from_item).length =
      (store.filter (fun p => attr p.2 = v)).length := by
  simp [conn_query_index]

theorem index_query_empty (store : Store) (attr : Item → String) (v : String)
    (h : ∀ p ∈ store, attr p.2 ≠ v) :
    (conn_query_index store attr v).map bond_from_item = [] := by
  have : store.filter (fun p => attr p.2 = v) = [] := by
    rw [List.filter_eq_nil_iff]
    intro p hp
    simpa using h p hp
  simp [conn_query_index, this]

def storeYYM : Store :=
  [("b2", bond_to_item bondB),
   ("b3", bond_to_item ⟨"b3", "H3", "S3", "yellow", "teal", []⟩),
   ("b4", bond_to_item ⟨"b4", "H4", "S4", "maroon", "teal", []⟩)]

/-- C7: each of the four index queries returns exactly the stored bonds
whose corresponding attribute equals the queried value — membership and
count — and the empty list (not an error) when nothing matches. -/
theorem index_query_spec (store : Store) (v : String) :
    ((∀ b, b ∈ get_bonds_by_host_cost_center store v ↔
        ∃ p ∈ store, p.2.host_cost_center = v ∧ b = bond_from_item p.2) ∧
      (get_bonds_by_host_cost_center store v).length =
        (store.filter (fun p => p.2.host_cost_center = v)).length ∧
      ((∀ p ∈ store, p.2.host_cost_center ≠ v) →
        get_bonds_by_host_cost_center store v = [])) ∧
    ((∀ b, b ∈ get_bonds_by_host_account_id store v ↔
        ∃ p ∈ store, p.2.host_account_id = v ∧ b = bond_from_item p.2) ∧
      (get_bonds_by_host_account_id store v).length =
        (store.filter (fun p => p.2.host_account_id = v)).length ∧
      ((∀ p ∈ store, p.2.host_account_id ≠ v) →
        get_bonds_by_host_account_id store v = [])) ∧
    ((∀ b, b ∈ get_bonds_by_sub_cost_center store v ↔
        ∃ p ∈ store, p.2.sub_cost_center = v ∧ b = bond_from_item p.2) ∧
      (get_bonds_by_sub_cost_center store v).length =
        (store.filter (fun p => p.2.sub_cost_center = v)).length ∧
      ((∀ p ∈ store, p.2.sub_cost_center ≠ v) →
        get_bonds_by_sub_cost_center store v = [])) ∧
    ((∀ b, b ∈ get_bonds_by_sub_account_id store v ↔
        ∃ p ∈ store, p.2.sub_account_id = v ∧ b = bond_from_item p.2) ∧
      (get_bonds_by_sub_account_id store v).length =
        (store.filter (fun p => p.2.sub_account_id = v)).length ∧
      ((∀ p ∈ store, p.2.sub_account_id ≠ v) →
        get_bonds_by_sub_account_id store v = [])) :=
  ⟨⟨fun b => mem_index_query store _ v b, length_index_query store _ v,
      fun h => index_query_empty store _ v h⟩,
    ⟨fun b => mem_index_query store _ v b, length_index_query store _ v,
      fun h => index_query_empty store _ v h⟩,
    ⟨fun b => mem_index_query store _ v b, length_index_query store _ v,
      fun h => index_query_empty store _ v h⟩,
    ⟨fun b => mem_index_query store _ v b, length_index_query store _ v,
      fun h => index_query_empty store _ v h⟩⟩

/-- C7 witness: the spec's yellow/yellow/maroon scenario — querying
"yellow" matches two records, querying "nonexistent" returns `[]`. -/
theorem index_query_spec_witness :
    (∀ p ∈ storeYYM, p.2.host_cost_center ≠ "nonexistent") ∧
    get_bonds_by_host_cost_center storeYYM "nonexistent" = [] ∧
    (get_bonds_by_host_cost_center storeYYM "yellow").length =
      (storeYYM.filter
        (fun p => p.2.host_cost_center = "yellow")).length ∧
    (storeYYM.filter (fun p => p.2.host_cost_center = "yellow")).length =
      2 := by
  have h : ∀ p ∈ storeYYM, p.2.host_cost_center ≠ "nonexistent" := by decide
  exact ⟨h, (index_query_spec storeYYM "nonexistent").1.2.2 h,
    (index_query_spec storeYYM "yellow").1.2.1, by decide⟩

/-- C8: the two-kind taxonomy. A `ConditionalCheckFailedException` code maps
to `ConditionalCheckError` with an entity-level message carrying the
offending `bond_id` ("already exists" for create, "not found" for update);
any other client error maps to the single generic `RegistryClientError`;
the subscriber operations raise `ConditionalCheckError` carrying both the
`bond_id` and the `sid`; and the two kinds are distinct whatever their
messages. -/
theorem error_taxonomy_spec :
    (∀ (b : Bond) (e : ClientError),
      e.code = "ConditionalCheckFailedException" →
        create_bond_on_client_error b e =
          RegistryError.conditionalCheckError
            ("Bond already exists: bond_id=" ++ b.bond_id)) ∧
    (∀ (b : Bond) (e : ClientError),
      e.code ≠ "ConditionalCheckFailedException" →
        create_bond_on_client_error b e =
          RegistryError.registryClientError
            ("Unexpected error querying the registry: " ++ e.msg)) ∧
    (∀ (b : Bond) (e : ClientError),
      e.code = "ConditionalCheckFailedException" →
        update_bond_on_client_error b e =
          RegistryError.conditionalCheckError
            ("Bond not found: bond_id=" ++ b.bond_id)) ∧
    (∀ (b : Bond) (e : ClientError),
      e.code ≠ "ConditionalCheckFailedException" →
        update_bond_on_client_error b e =
          RegistryError.registryClientError
            ("Unexpected error querying the registry: " ++ e.msg)) ∧
    (∀ e : ClientError,
      query_on_client_error e =
        RegistryError.registryClientError
          ("Unexpected error querying the registry: " ++ e.msg)) ∧
    (∀ (store : Store) (x : String) (s : Subscriber),
      alLookup store x = none →
        (add_subscriber store x s).1 =
          Except.error (RegistryError.conditionalCheckError
            ("Bond " ++ x ++ " not found. Cannot add subscriber " ++
             s.sid ++ "."))) ∧
    (∀ (store : Store) (x sid : String),
      alLookup store x = none →
        (remove_subscriber store x sid).1 =
          Except.error (RegistryError.conditionalCheckError
            ("Bond " ++ x ++ " not found. Cannot remove subscriber " ++
             sid ++ "."))) ∧
    (∀ m m', RegistryError.conditionalCheckError m ≠
      RegistryError.registryClientError m') := by
  refine ⟨?_, ?_, ?_, ?_, ?_, ?_, ?_, ?_⟩
  · intro b e h
    simp [create_bond_on_client_error, h]
  · intro b e h
    simp [create_bond_on_client_error, h]
  · intro b e h
    simp [update_bond_on_client_error, h]
  · intro b e h
    simp [update_bond_on_client_error, h]
  · intro e
    rfl
  · intro store x s h
    simp [add_subscriber, get_bond, conn_query_key, h]
  · intro store x sid h
    simp [remove_subscriber, get_bond, conn_query_key, h]
  · intro m m' h
    exact RegistryError.noConfusion h

/-- C8 witness: the taxonomy theorem at concrete errors and stores. -/
theorem error_taxonomy_spec_witness :
    create_bond_on_client_error bondA
        ⟨"ConditionalCheckFailedException", "cond"⟩ =
      RegistryError.conditionalCheckError
        ("Bond already exists: bond_id=" ++ bondA.bond_id) ∧
    create_bond_on_client_error bondA ⟨"ThrottlingException", "slow down"⟩ =
      RegistryError.registryClientError
        ("Unexpected error querying the registry: " ++ "slow down") ∧
    update_bond_on_client_error bondA
        ⟨"ConditionalCheckFailedException", "cond"⟩ =
      RegistryError.conditionalCheckError
        ("Bond not found: bond_id=" ++ bondA.bond_id) ∧
    (add_subscriber ([] : Store) "bx" subU1).1 =
      Except.error (RegistryError.conditionalCheckError
        ("Bond " ++ "bx" ++ " not found. Cannot add subscriber " ++
         subU1.sid ++ ".")) ∧
    RegistryError.conditionalCheckError "a" ≠
      RegistryError.registryClientError "a" := by
  refine ⟨error_taxonomy_spec.1 bondA _ rfl,
    error_taxonomy_spec.2.1 bondA _ (by decide),
    error_taxonomy_spec.2.2.1 bondA _ rfl,
    error_taxonomy_spec.2.2.2.2.2.1 ([] : Store) "bx" subU1 (by decide),
    error_taxonomy_spec.2.2.2.2.2.2.2 "a" "a"⟩

/-- C9: the persisted record is exactly the six-field item with
`subscribers` as the nested sid-keyed mapping of three-field entries;
decoding the item written by `create_bond` restores the original bond, so
`create_bond` followed by `get_bond` on the same id returns a bond equal to
the one created. -/
theorem storage_round_trip_spec (store : Store) (b : Bond)
    (h : alLookup store b.bond_id = none) :
    (bond_to_item b).subscribers =
      b.subscribers.map
        (fun p => (p.1, SubscriberItem.mk p.2.sid p.2.name p.2.email)) ∧
    bond_from_item (bond_to_item b) = b ∧
    (create_bond store b).1 = Except.ok b ∧
    alLookup (create_bond store b).2 b.bond_id = some (bond_to_item b) ∧
    get_bond (create_bond store b).2 b.bond_id = some b := by
  have hstore : (create_bond store b).2 =
      alInsert store b.bond_id (bond_to_item b) := by
    simp [create_bond, conn_put_item, bond_to_item, h]
  have hlook : alLookup (create_bond store b).2 b.bond_id =
      some (bond_to_item b) := by
    rw [hstore]
    exact alLookup_alInsert_self _ _ _
  refine ⟨rfl, bond_from_item_bond_to_item b, ?_, hlook, ?_⟩
  · simp [create_bond, conn_put_item, bond_to_item, h]
  · simp [get_bond, conn_query_key, hlook, bond_from_item_bond_to_item]

/-- C9 witness: round-trip of a bond with a non-empty subscriber mapping
through an empty store. -/
theorem storage_round_trip_spec_witness :
    alLookup ([] : Store) bondB.bond_id = none ∧
    bond_from_item (bond_to_item bondB) = bondB ∧
    (create_bond ([] : Store) bondB).1 = Except.ok bondB ∧
    get_bond (create_bond ([] : Store) bondB).2 bondB.bond_id =
      some bondB := by
  have h : alLookup ([] : Store) bondB.bond_id = none := by decide
  have c := storage_round_trip_spec ([] : Store) bondB h
  exact ⟨h, c.2.1, c.2.2.1, c.2.2.2.2⟩

/-- Key-stability: every stored pair's item carries the storage key as its
`bond_id` attribute. -/
def StoreInv (s : Store) : Prop := ∀ p ∈ s, (p.2 : Item).bond_id = p.1

/-- Store states reachable from the empty table through the engine's
operations. -/
inductive Reachable : Store → Prop where
  | empty : Reachable []
  | create (s : Store) (b : Bond) : Reachable s → Reachable (create_bond s b).2
  | update (s : Store) (b : Bond) : Reachable s → Reachable (update_bond s b).2
  | del (s : Store) (x : String) : Reachable s → Reachable (delete_bond s x).2
  | addSub (s : Store) (x : String) (sub : Subscriber) :
      Reachable s → Reachable (add_subscriber s x sub).2
  | rmSub (s : Store) (x sid : String) :
      Reachable s → Reachable (remove_subscriber s x sid).2

theorem storeInv_create (s : Store) (b : Bond) (h : StoreInv s) :
    StoreInv (create_bond s b).2 := by
  cases hc : alLookup s b.bond_id with
  | some it =>
      have he : (create_bond s b).2 = s := by
        simp [create_bond, conn_put_item, bond_to_item, hc]
      rw [he]
      exact h
  | none =>
      have he : (create_bond s b).2 = alInsert s b.bond_id (bond_to_item b) := by
        simp [create_bond, conn_put_item, bond_to_item, hc]
      rw [he]
      intro p hp
      rcases mem_alInsert _ _ _ p hp with h₁ | h₁
      · subst h₁
        rfl
      · exact h p h₁

theorem storeInv_update (s : Store) (b : Bond) (h : StoreInv s) :
    StoreInv (update_bond s b).2 := by
  cases hc : alLookup s b.bond_id with
  | none =>
      have he : (update_bond s b).2 = s := by
        simp [update_bond, conn_update_item, hc]
      rw [he]
      exact h
  | some it =>
      have he : (update_bond s b).2 =
          alInsert s b.bond_id (updated_item it b) := by
        simp [update_bond, conn_update_item, hc, updated_item]
      rw [he]
      intro p hp
      rcases mem_alInsert _ _ _ p hp with h₁ | h₁
      · subst h₁
        exact h (b.bond_id, it) (alLookup_mem s b.bond_id it hc)
      · exact h p h₁

theorem storeInv_delete (s : Store) (x : String) (h : StoreInv s) :
    StoreInv (delete_bond s x).2 := by
  intro p hp
  exact h p (mem_alErase _ _ p hp)

theorem storeInv_addSub (s : Store) (x : String) (sub : Subscriber)
    (h : StoreInv s) : StoreInv (add_subscriber s x sub).2 := by
  cases hc : alLookup s x with
  | none =>
      have he : (add_subscriber s x sub).2 = s := by
        simp [add_subscriber, get_bond, conn_query_key, hc]
      rw [he]
      exact h
  | some it =>
      have he : (add_subscriber s x sub).2 =
          (update_bond s ((bond_from_item it).add_subscriber sub)).2 := by
        simp [add_subscriber, get_bond, conn_query_key, hc]
      rw [he]
      exact storeInv_update _ _ h

theorem storeInv_rmSub (s : Store) (x sid : String) (h : StoreInv s) :
    StoreInv (remove_subscriber s x sid).2 := by
  cases hc : alLookup s x with
  | none =>
      have he : (remove_subscriber s x sid).2 = s := by
        simp [remove_subscriber, get_bond, conn_query_key, hc]
      rw [he]
      exact h
  | some it =>
      have he : (remove_subscriber s x sid).2 =
          (update_bond s ((bond_from_item it).remove_subscriber sid)).2 := by
        simp [remove_subscriber, get_bond, conn_query_key, hc]
      rw [he]
      exact storeInv_update _ _ h

theorem reachable_storeInv (s : Store) (h : Reachable s) : StoreInv s := by
  induction h with
  | empty => intro p hp; simp at hp
  | create s b _ ih => exact storeInv_create s b ih
  | update s b _ ih => exact storeInv_update s b ih
  | del s x _ ih => exact storeInv_delete s x ih
  | addSub s x sub _ ih => exact storeInv_addSub s x sub ih
  | rmSub s x sid _ ih => exact storeInv_rmSub s x sid ih

theorem update_bond_keys (s : Store) (b : Bond) (k : String) :
    (alLookup (update_bond s b).2 k).isSome = (alLookup s k).isSome := by
  cases hc : alLookup s b.bond_id with
  | none => simp [update_bond, conn_update_item, hc]
  | some it =>
      have he : (update_bond s b).2 =
          alInsert s b.bond_id (updated_item it b) := by
        simp [update_bond, conn_update_item, hc, updated_item]
      rw [he]
      by_cases hk : k = b.bond_id
      · subst hk
        rw [alLookup_alInsert_self, hc]
        rfl
      · rw [alLookup_alInsert_ne _ _ _ _ hk]

theorem add_subscriber_keys (s : Store) (x : String) (sub : Subscriber)
    (k : String) :
    (alLookup (add_subscriber s x sub).2 k).isSome =
      (alLookup s k).isSome := by
  cases hc : alLookup s x with
  | none => simp [add_subscriber, get_bond, conn_query_key, hc]
  | some it =>
      have he : (add_subscriber s x sub).2 =
          (update_bond s ((bond_from_item it).add_subscriber sub)).2 := by
        simp [add_subscriber, get_bond, conn_query_key, hc]
      rw [he]
      exact update_bond_keys _ _ k

theorem remove_subscriber_keys (s : Store) (x sid k : String) :
    (alLookup (remove_subscriber s x sid).2 k).isSome =
      (alLookup s k).isSome := by
  cases hc : alLookup s x with
  | none => simp [remove_subscriber, get_bond, conn_query_key, hc]
  | some it =>
      have he : (remove_subscriber s x sid).2 =
          (update_bond s ((bond_from_item it).remove_subscriber sid)).2 := by
        simp [remove_subscriber, get_bond, conn_query_key, hc]
      rw [he]
      exact update_bond_keys _ _ k

/-- C10: in every reachable store state each stored record's `bond_id`
attribute equals its storage key; `update_bond`, `add_subscriber` and
`remove_subscriber` never change the set of stored keys; a failed
`create_bond` changes nothing, a successful one stores exactly under
`b.bond_id` (whose item carries that very `bond_id`) touching no other key;
`delete_bond` removes exactly its key. -/
theorem key_stability_spec :
    (∀ s : Store, Reachable s → ∀ (k : String) (it : Item),
      alLookup s k = some it → it.bond_id = k) ∧
    (∀ (s : Store) (b : Bond) (k : String),
      (alLookup (update_bond s b).2 k).isSome = (alLookup s k).isSome) ∧
    (∀ (s : Store) (x : String) (sub : Subscriber) (k : String),
      (alLookup (add_subscriber s x sub).2 k).isSome =
        (alLookup s k).isSome) ∧
    (∀ (s : Store) (x sid k : String),
      (alLookup (remove_subscriber s x sid).2 k).isSome =
        (alLookup s k).isSome) ∧
    (∀ (s : Store) (b : Bond) (it : Item),
      alLookup s b.bond_id = some it → (create_bond s b).2 = s) ∧
    (∀ (s : Store) (b : Bond), alLookup s b.bond_id = none →
      alLookup (create_bond s b).2 b.bond_id = some (bond_to_item b) ∧
      (bond_to_item b).bond_id = b.bond_id ∧
      ∀ k, k ≠ b.bond_id →
        alLookup (create_bond s b).2 k = alLookup s k) ∧
    (∀ (s : Store) (x : String),
      alLookup (delete_bond s x).2 x = none ∧
      ∀ k, k ≠ x → alLookup (delete_bond s x).2 k = alLookup s k) := by
  refine ⟨?_, update_bond_keys, add_subscriber_keys, remove_subscriber_keys,
    ?_, ?_, ?_⟩
  · intro s hs k it hit
    exact reachable_storeInv s hs (k, it) (alLookup_mem s k it hit)
  · intro s b it hit
    simp [create_bond, conn_put_item, bond_to_item, hit]
  · intro s b h
    have he : (create_bond s b).2 = alInsert s b.bond_id (bond_to_item b) := by
      simp [create_bond, conn_put_item, bond_to_item, h]
    refine ⟨?_, rfl, ?_⟩
    · rw [he]
      exact alLookup_alInsert_self _ _ _
    · intro k hk
      rw [he]
      exact alLookup_alInsert_ne _ _ _ _ hk
  · intro s x
    exact ⟨alLookup_alErase_self s x, fun k hk => alLookup_alErase_ne s x k hk⟩

/-- C10 witness: the invariant on a concrete reachable store (built by two
creates and a subscriber addition), plus the key-set facts at concrete
keys. -/
theorem key_stability_spec_witness :
    (∀ (k : String) (it : Item),
      alLookup (add_subscriber (create_bond (create_bond ([] : Store)
        bondA).2 bondB).2 "b2" subU1).2 k = some it → it.bond_id = k) ∧
    (alLookup (update_bond storeA bondA).2 "b1").isSome =
      (alLookup storeA "b1").isSome ∧
    alLookup ([] : Store) bondA.bond_id = none ∧
    alLookup (create_bond ([] : Store) bondA).2 bondA.bond_id =
      some (bond_to_item bondA) ∧
    alLookup (delete_bond storeA "b1").2 "b1" = none := by
  have hr : Reachable (add_subscriber (create_bond (create_bond ([] : Store)
      bondA).2 bondB).2 "b2" subU1).2 :=
    Reachable.addSub _ "b2" subU1
      (Reachable.create _ bondB (Reachable.create _ bondA Reachable.empty))
  have h : alLookup ([] : Store) bondA.bond_id = none := by decide
  exact ⟨key_stability_spec.1 _ hr,
    key_stability_spec.2.1 storeA bondA "b1",
    h,
    (key_stability_spec.2.2.2.2.2.1 ([] : Store) bondA h).1,
    (key_stability_spec.2.2.2.2.2.2 storeA "b1").1⟩

end BondRegistry
